import Mathlib

/-!
Verification development for the WLST MCP server (`src/wlst_mcp.py`).

The file shallowly embeds the script-templating / process-execution /
output-extraction pipeline of the source: Python string operations are
modelled over `List Char`, `json.loads` is modelled by an executable JSON
parser covering the JSON grammar used by the scripts (objects, arrays,
strings with simple escapes, integers, booleans, null; `\uXXXX` escapes and
float literals are not modelled and are treated as decode failures, which
no claim exercises), and the async subprocess execution is modelled by an
explicit `ProcOutcome` describing how the child process behaves.
-/

namespace WlstMcp

/-! ## Python string primitives (over `List Char`) -/

/-- Model of `needle` being a prefix of a character list (used to build the
other scanners). -/
def leadsWith : List Char → List Char → Bool
  | a :: as, b :: bs => a == b && leadsWith as bs
  | [], _ => true
  | _, [] => false

/-- Model of Python substring containment `needle in hay`. -/
def pyInAux : List Char → List Char → Bool
  | needle, [] => leadsWith needle []
  | needle, c :: rest => leadsWith needle (c :: rest) || pyInAux needle rest

/-- Python `needle in hay` on strings. -/
def pyInS (needle hay : String) : Bool := pyInAux needle.data hay.data

/-- Model of Python `str.find`: index of the first occurrence, `none` for -1. -/
def pyFindAux (needle : List Char) : List Char → Option Nat
  | [] => if leadsWith needle [] then some 0 else none
  | c :: rest =>
    if leadsWith needle (c :: rest) then some 0
    else (pyFindAux needle rest).map (· + 1)

/-- Python `s.find(needle)` (with -1 mapped to `none`). -/
def pyFindS (s needle : String) : Option Nat := pyFindAux needle.data s.data

/-- Python slice `s[a:b]` for nonnegative bounds: clamped, empty when `b ≤ a`. -/
def pySliceS (s : String) (a b : Nat) : String :=
  String.mk ((s.data.drop a).take (b - a))

/-- Whitespace characters stripped by Python `str.strip()` (ASCII part; the
extra Unicode whitespace Python also strips does not occur in any input
considered here). -/
def pyWs (c : Char) : Bool :=
  c == ' ' || c == '\t' || c == '\n' || c == '\r' || c == '\x0b' || c == '\x0c'

/-- Python `s.strip()`. -/
def pyStripS (s : String) : String :=
  String.mk (((s.data.dropWhile pyWs).reverse.dropWhile pyWs).reverse)

/-- Model of Python `s.split('\n')`: keeps empty pieces, drops the separators. -/
def pySplitNlAux : List Char → List (List Char)
  | [] => [[]]
  | c :: rest =>
    let r := pySplitNlAux rest
    if c == '\n' then [] :: r
    else
      match r with
      | h :: t => (c :: h) :: t
      | [] => [[c]]

/-- Python `s.split('\n')` on strings. -/
def pySplitLinesS (s : String) : List String := (pySplitNlAux s.data).map String.mk

/-- Model of Python `s.replace(needle, repl)`: left-to-right, non-overlapping.
The fuel argument is the length of the haystack; every step consumes at least
one character, so the fuel never runs out for a nonempty needle. -/
def pyReplaceAux (needle repl : List Char) : Nat → List Char → List Char
  | _, [] => []
  | 0, hay => hay
  | f + 1, c :: rest =>
    if leadsWith needle (c :: rest) && !needle.isEmpty then
      repl ++ pyReplaceAux needle repl f (rest.drop (needle.length - 1))
    else
      c :: pyReplaceAux needle repl f rest

/-- Python `s.replace(needle, repl)` on strings. An empty needle (for which
Python would interleave `repl` everywhere; never used by the source, which
only replaces literal marker tags) is modelled as the identity. -/
def pyReplaceAllS (s needle repl : String) : String :=
  if needle.data.isEmpty then s
  else String.mk (pyReplaceAux needle.data repl.data s.data.length s.data)

/-- Python string truthiness resolution `caller or default` used by all the
`get_admin_url` / `get_username` / `get_password` accessors: a `None` or
empty caller value falls back to the environment default. -/
def pyOrStr (v : Option String) (dflt : String) : String :=
  match v with
  | some s => if s == "" then dflt else s
  | none => dflt

/-- Python `s.startswith(p)` (used to state that a result message belongs to
the connection-failure family produced by `_handle_error`). -/
def strStarts (p s : String) : Bool := leadsWith p.data s.data

/-! ## JSON values and `json.loads`

The source exchanges structured data with the WLST child process as
single-line JSON payloads decoded with `json.loads`. `JVal` is the value
domain and `json_loads` an executable model of the decoder on the JSON
grammar actually produced by the generated scripts. -/

/-- Decoded JSON values (the result type of `json.loads`). Duplicate object
keys are kept in the list; lookups take the last binding, matching the
last-wins behaviour of Python dict construction. -/
inductive JVal where
  | null : JVal
  | bool : Bool → JVal
  | num : Int → JVal
  | str : String → JVal
  | arr : List JVal → JVal
  | obj : List (String × JVal) → JVal

/-- JSON insignificant whitespace. -/
def jsonWs (c : Char) : Bool := c == ' ' || c == '\t' || c == '\n' || c == '\r'

/-- Skip JSON whitespace. -/
def skipWs (cs : List Char) : List Char := cs.dropWhile jsonWs

/-- Table of the JSON two-character string escapes (the character after the
backslash paired with its meaning). `u`-escapes are not modelled: parsing
fails on them. -/
def jsonEscPairs : List (Char × Char) :=
  [('"', '"'), ('\\', '\\'), ('/', '/'), ('n', '\n'), ('t', '\t'),
   ('r', '\r'), ('b', '\x08'), ('f', '\x0c')]

/-- Lookup of a JSON string escape. -/
def jsonEscChar (e : Char) : Option Char :=
  (jsonEscPairs.find? (fun p => p.1 == e)).map Prod.snd

/-- Parse the body of a JSON string after the opening quote; returns the
decoded characters and the input after the closing quote. -/
def parseStringBody : List Char → Option (List Char × List Char)
  | [] => none
  | '"' :: rest => some ([], rest)
  | '\\' :: e :: rest =>
    match jsonEscChar e with
    | some c => (parseStringBody rest).map (fun p => (c :: p.1, p.2))
    | none => none
  | c :: rest => (parseStringBody rest).map (fun p => (c :: p.1, p.2))

/-- Numeric value of a digit list. -/
def digitsVal (ds : List Char) : Nat :=
  ds.foldl (fun a c => a * 10 + (c.toNat - 48)) 0

/-- Parse a JSON integer literal (floats are not modelled: a trailing `.` or
exponent makes the surrounding parse fail, which the pipeline treats as a
decode failure). -/
def parseNum (cs : List Char) : Option (Int × List Char) :=
  match cs with
  | '-' :: rest =>
    let ds := rest.takeWhile Char.isDigit
    if ds.isEmpty then none
    else if decide (1 < ds.length) && ds.head? == some '0' then none
    else some (-(digitsVal ds : Int), rest.drop ds.length)
  | _ =>
    let ds := cs.takeWhile Char.isDigit
    if ds.isEmpty then none
    else if decide (1 < ds.length) && ds.head? == some '0' then none
    else some ((digitsVal ds : Int), cs.drop ds.length)

/-- Recursive-descent JSON value parser. The fuel decreases on every
recursive call; continuations of array/object bodies are parsed by
re-prefixing the opening bracket, so nesting plus element count is bounded
by the input length and the top-level fuel `length + 1` always suffices. -/
def parseV : Nat → List Char → Option (JVal × List Char)
  | 0, _ => none
  | fuel + 1, cs =>
    match skipWs cs with
    | 'n' :: rest =>
      if leadsWith "ull".data rest then some (.null, rest.drop 3) else none
    | 't' :: rest =>
      if leadsWith "rue".data rest then some (.bool true, rest.drop 3) else none
    | 'f' :: rest =>
      if leadsWith "alse".data rest then some (.bool false, rest.drop 4) else none
    | '"' :: rest =>
      (parseStringBody rest).map (fun p => (.str (String.mk p.1), p.2))
    | '[' :: rest =>
      (match skipWs rest with
       | ']' :: r2 => some (.arr [], r2)
       | _ =>
         match parseV fuel rest with
         | some (v, r2) =>
           (match skipWs r2 with
            | ',' :: r3 =>
              (match parseV fuel ('[' :: r3) with
               | some (.arr (w :: ws), r4) => some (.arr (v :: w :: ws), r4)
               | _ => none)
            | ']' :: r3 => some (.arr [v], r3)
            | _ => none)
         | none => none)
    | '{' :: rest =>
      (match skipWs rest with
       | '}' :: r2 => some (.obj [], r2)
       | '"' :: rk =>
         (match parseStringBody rk with
          | some (k, r2) =>
            (match skipWs r2 with
             | ':' :: r3 =>
               (match parseV fuel r3 with
                | some (v, r4) =>
                  (match skipWs r4 with
                   | ',' :: r5 =>
                     (match parseV fuel ('{' :: r5) with
                      | some (.obj (kv :: kvs), r6) =>
                        some (.obj ((String.mk k, v) :: kv :: kvs), r6)
                      | _ => none)
                   | '}' :: r5 => some (.obj [(String.mk k, v)], r5)
                   | _ => none)
                | none => none)
             | _ => none)
          | none => none)
       | _ => none)
    | other =>
      match parseNum other with
      | some (n, rest) => some (.num n, rest)
      | none => none

/-- Model of Python `json.loads`: parse one value, require only whitespace
after it; any failure is `none` (the source catches the decode exception). -/
def json_loads (s : String) : Option JVal :=
  match parseV (s.data.length + 1) s.data with
  | some (v, rest) => if (skipWs rest).isEmpty then some v else none
  | none => none

/-! ## Python value helpers used by the tool bodies -/

/-- Python truthiness of a decoded JSON value (`if not servers: ...`). -/
def pyFalsy : JVal → Bool
  | .null => true
  | .bool b => !b
  | .num n => n == 0
  | .str s => s == ""
  | .arr xs => xs.isEmpty
  | .obj kvs => kvs.isEmpty

/-- First-occurrence key dedup, as in Python dict iteration order. -/
def dedupKeysAux (seen : List String) : List String → List String
  | [] => []
  | k :: ks =>
    if seen.contains k then dedupKeysAux seen ks
    else k :: dedupKeysAux (k :: seen) ks

/-- Python `len(v)` for decoded JSON values; `none` where Python raises
`TypeError` (numbers, booleans, `None`). -/
def pyLen : JVal → Option Nat
  | .arr xs => some xs.length
  | .str s => some s.data.length
  | .obj kvs => some (dedupKeysAux [] (kvs.map Prod.fst)).length
  | _ => none

/-- Python iteration `for x in v` for decoded JSON values; `none` where
Python raises `TypeError`. Dict iteration yields the keys. -/
def pyIter : JVal → Option (List JVal)
  | .arr xs => some xs
  | .str s => some (s.data.map (fun c => .str (String.mk [c])))
  | .obj kvs => some ((dedupKeysAux [] (kvs.map Prod.fst)).map .str)
  | _ => none

/-- Python subscript `v[key]` with a string key; `none` where Python raises
(`KeyError` for a missing key, `TypeError` for non-dict values). Duplicate
keys resolve to the last binding, as in Python dicts. -/
def pyGetItem (v : JVal) (key : String) : Option JVal :=
  match v with
  | .obj kvs => ((kvs.filter (fun kv => kv.1 == key)).getLast?).map Prod.snd
  | _ => none

/-- Python equality `v == s` between a decoded JSON value and a string
literal (as in `server['state'] == 'RUNNING'`). -/
def jvalEqStr (v : JVal) (s : String) : Bool :=
  match v with
  | .str t => t == s
  | _ => false

/-- Simplified Python `repr` of a string: quote choice follows Python
(double quotes when the text contains a single quote but no double quote),
without modelling escape sequences inside the text (no theorem evaluates
this on text that would need them). -/
def pyReprStr (s : String) : String :=
  if pyInS "'" s && !pyInS "\"" s then "\"" ++ s ++ "\""
  else "'" ++ s ++ "'"

/-- Fuelled Python `repr` of a decoded JSON container (used by `str()` on
lists/dicts inside f-strings). Fuel bounds the nesting depth. -/
def pyReprAux : Nat → JVal → String
  | 0, _ => ""
  | fuel + 1, v =>
    match v with
    | .null => "None"
    | .bool true => "True"
    | .bool false => "False"
    | .num n => toString n
    | .str s => pyReprStr s
    | .arr xs =>
      "[" ++ String.intercalate ", " (xs.map (pyReprAux fuel)) ++ "]"
    | .obj kvs =>
      "\x7b" ++
        String.intercalate ", "
          (kvs.map (fun kv => pyReprStr kv.1 ++ ": " ++ pyReprAux fuel kv.2)) ++
      "\x7d"

/-- Python `str(v)` as used when interpolating a decoded JSON value into an
f-string. The fuel only matters for nested containers; callers pass a bound
exceeding the value's depth. -/
def pyStrOf (fuel : Nat) : JVal → String
  | .str s => s
  | .num n => toString n
  | .bool true => "True"
  | .bool false => "False"
  | .null => "None"
  | v => pyReprAux fuel v

/-- Hexadecimal digit (lowercase, as produced by Python's `json.dumps`). -/
def hexDigit (n : Nat) : Char :=
  if n < 10 then Char.ofNat (48 + n) else Char.ofNat (87 + n)

/-- Fixed-width lowercase hex digits of `n`, most significant first. -/
def hexDigitsTo : Nat → Nat → List Char
  | 0, _ => []
  | w + 1, n => hexDigitsTo w (n / 16) ++ [hexDigit (n % 16)]

/-- Four-digit lowercase hex rendering of a code unit. -/
def hex4 (n : Nat) : List Char := hexDigitsTo 4 n

/-- Table of the two-character escapes emitted by `json.dumps` (the source
character paired with the character after the backslash). -/
def jsonDumpEscPairs : List (Char × Char) :=
  [('"', '"'), ('\\', '\\'), ('\n', 'n'), ('\t', 't'), ('\r', 'r'),
   ('\x08', 'b'), ('\x0c', 'f')]

/-- `json.dumps` escaping of one character (`ensure_ascii=True` default:
non-ASCII becomes a `u`-escape, with surrogate pairs above U+FFFF). -/
def jsonEscapeChar (c : Char) : List Char :=
  match jsonDumpEscPairs.find? (fun p => p.1 == c) with
  | some p => ['\\', p.2]
  | none =>
    if c.toNat < 32 || 126 < c.toNat then
      if c.toNat < 65536 then '\\' :: 'u' :: hex4 c.toNat
      else
        let m := c.toNat - 65536
        ('\\' :: 'u' :: hex4 (55296 + m / 1024)) ++
          ('\\' :: 'u' :: hex4 (56320 + m % 1024))
    else [c]

/-- `json.dumps` rendering of a string literal. -/
def jsonQuote (s : String) : String :=
  "\"" ++ String.mk (s.data.flatMap jsonEscapeChar) ++ "\""

/-- Indentation prefix for `json.dumps(..., indent=2)`. -/
def indentSp (lvl : Nat) : String := String.mk (List.replicate (2 * lvl) ' ')

/-- Fuelled model of `json.dumps(v, indent=2)`. Fuel bounds nesting depth;
callers pass a bound exceeding the value's depth. -/
def json_dumps_aux : Nat → Nat → JVal → String
  | 0, _, _ => ""
  | fuel + 1, lvl, v =>
    match v with
    | .null => "null"
    | .bool true => "true"
    | .bool false => "false"
    | .num n => toString n
    | .str s => jsonQuote s
    | .arr [] => "[]"
    | .arr (x :: xs) =>
      "[\n" ++
        String.intercalate ",\n"
          ((x :: xs).map (fun y => indentSp (lvl + 1) ++ json_dumps_aux fuel (lvl + 1) y)) ++
      "\n" ++ indentSp lvl ++ "]"
    | .obj [] => "\x7b\x7d"
    | .obj (kv :: kvs) =>
      "\x7b\n" ++
        String.intercalate ",\n"
          ((kv :: kvs).map (fun p =>
            indentSp (lvl + 1) ++ jsonQuote p.1 ++ ": " ++
              json_dumps_aux fuel (lvl + 1) p.2)) ++
      "\n" ++ indentSp lvl ++ "\x7d"

/-! ## Process Runner: `_execute_wlst_script` -/

/-- How the launched WLST child process behaves on a given invocation:
either it fails to finish within the timeout, or it completes with an exit
code and captured (already decoded) stdout/stderr. -/
inductive ProcOutcome where
  | timesOut : ProcOutcome
  | completes (returncode : Int) (stdout stderr : String) : ProcOutcome

/-- The dictionary returned by `_execute_wlst_script` (the `returncode` key
is absent — `none` — on the timeout path). -/
structure ExecResult where
  success : Bool
  returncode : Option Int
  stdout : String
  stderr : String
  error : Option String

/-- One full `_execute_wlst_script` invocation: the result dictionary plus
the resource-lifecycle facts the claims are about. -/
structure RunTrace where
  result : ExecResult
  /-- `process.kill()` was issued. -/
  killed : Bool
  /-- `os.unlink(script_path)` was attempted (the `finally` block ran). -/
  deletionAttempted : Bool

/-- Model of `_execute_wlst_script`: the body computes the result dictionary
from the child-process behaviour; the `finally` block always attempts to
delete the temporary script file and swallows any deletion failure
(`unlinkFails`), so the returned result never depends on it. -/
def execute_wlst_script (b : ProcOutcome) (timeout : Nat) (unlinkFails : Bool) :
    RunTrace :=
  let result : ExecResult :=
    match b with
    | .timesOut =>
      { success := false
        returncode := none
        stdout := ""
        stderr := ""
        error := some ("Script execution timed out after " ++ toString timeout ++ " seconds") }
    | .completes rc out err =>
      { success := rc == 0
        returncode := some rc
        stdout := out
        stderr := err
        error := if rc != 0 then some err else none }
  { result := result
    killed := (match b with | .timesOut => true | .completes _ _ _ => false)
    deletionAttempted := (unlinkFails || !unlinkFails) }

/-! ## Script Composer fragments -/

/-- `_build_connect_script`: the literal connect fragment, with the
caller-controlled values interpolated verbatim (no escaping). -/
def build_connect_script (admin_url username password : String) : String :=
  "\ntry:\n    connect('" ++ username ++ "', '" ++ password ++ "', '" ++
    admin_url ++
    "')\nexcept Exception as e:\n    print('CONNECTION_ERROR: ' + str(e))\n    exit(1)\n"

/-- `_build_disconnect_script`: the literal disconnect fragment. -/
def build_disconnect_script : String :=
  "\ntry:\n    disconnect()\nexcept:\n    pass\n"

/-! ## Error classification: `_handle_error` -/

/-- `_handle_error`: connection-error marker first, then a truthy `error`
field, then the generic message. -/
def handle_error (r : ExecResult) : String :=
  if pyInS "CONNECTION_ERROR" r.stdout then
    "Error: Connection failed. " ++
      (match (pySplitLinesS r.stdout).filter (fun l => pyInS "CONNECTION_ERROR" l) with
       | l :: _ => l
       | [] => "Check credentials and URL.")
  else
    match r.error with
    | some e =>
      if e == "" then "Error: Unknown error occurred during WLST execution"
      else "Error: " ++ e
    | none => "Error: Unknown error occurred during WLST execution"

/-! ## Operation pipelines (per-tool classification and rendering)

Each `..._render` function maps the `ExecResult` of the WLST child process
to the string the tool returns. Functions return `Option String` when the
Python body can raise on adversarial decoded data (a `none` models an
uncaught exception); functions whose body cannot raise return `String`. -/

/-- Output format selector (`ResponseFormat`). -/
inductive ResponseFormat where
  | markdown : ResponseFormat
  | json : ResponseFormat

/-- Result classification of `wlst_test_connection`: the success check
(`result['success'] and 'CONNECTION_SUCCESS' in stdout`) runs first; every
other outcome goes to `_handle_error`. -/
def wlst_test_connection_render (r : ExecResult) (admin_url : String) : String :=
  if r.success && pyInS "CONNECTION_SUCCESS" r.stdout then
    let lines := pySplitLinesS r.stdout
    let domain_name :=
      match lines.filter (fun l => pyInS "DOMAIN_NAME:" l) with
      | l :: _ => pyReplaceAllS l "DOMAIN_NAME: " ""
      | [] => "Unknown"
    let domain_version :=
      match lines.filter (fun l => pyInS "DOMAIN_VERSION:" l) with
      | l :: _ => pyReplaceAllS l "DOMAIN_VERSION: " ""
      | [] => "Unknown"
    "Connection successful!\n\n- **Domain**: " ++ domain_name ++
      "\n- **Version**: " ++ domain_version ++ "\n- **URL**: " ++ admin_url
  else handle_error r

/-- Result classification of `wlst_start_server`: success check first, then
the `START_ERROR` tag, then `_handle_error`. -/
def wlst_start_server_render (r : ExecResult) (server_name : String) : String :=
  if r.success && pyInS "SERVER_STARTED" r.stdout then
    "Server **" ++ server_name ++ "** started successfully."
  else if pyInS "START_ERROR" r.stdout then
    "Error starting server: " ++
      (match (pySplitLinesS r.stdout).filter (fun l => pyInS "START_ERROR" l) with
       | l :: _ => pyReplaceAllS l "START_ERROR: " ""
       | [] => "Unknown error")
  else handle_error r

/-- The stdout-scanning loop shared by `wlst_list_servers` (tag
`SERVERS_JSON:`) and `wlst_list_applications` (tag `APPS_JSON:`): every line
containing the tag is decoded and, when decoding succeeds, overwrites the
accumulator; decode failures are swallowed by the `except: pass`. -/
def extract_tag_loop (tag : String) : List String → JVal → JVal
  | [], acc => acc
  | l :: ls, acc =>
    if pyInS tag l then
      match json_loads (pyReplaceAllS l tag "") with
      | some v => extract_tag_loop tag ls v
      | none => extract_tag_loop tag ls acc
    else extract_tag_loop tag ls acc

/-- What one line contributes to the tag-extraction loop: `some v` when the
line contains the tag and its payload decodes, `none` otherwise. -/
def decode_tag_line (tag l : String) : Option JVal :=
  if pyInS tag l then json_loads (pyReplaceAllS l tag "") else none

/-- The `SERVERS_JSON:` extraction of `wlst_list_servers` over captured
stdout (the accumulator starts as the empty Python list `servers = []`). -/
def extract_servers (stdout : String) : JVal :=
  extract_tag_loop "SERVERS_JSON:" (pySplitLinesS stdout) (.arr [])

/-- Result classification and rendering of `wlst_list_servers`. -/
def wlst_list_servers_render (r : ExecResult) (fmt : ResponseFormat) :
    Option String :=
  if !r.success then some (handle_error r)
  else
    let servers := extract_servers r.stdout
    if pyFalsy servers then some "No servers found or unable to parse server list."
    else
      let fuel := r.stdout.data.length + 2
      match fmt with
      | .json =>
        (pyLen servers).map (fun n =>
          json_dumps_aux fuel 0 (.obj [("servers", servers), ("total", .num n)]))
      | .markdown =>
        match pyLen servers, pyIter servers with
        | some n, some elems =>
          (elems.mapM (fun server => do
            let st ← pyGetItem server "state"
            let emoji :=
              if jvalEqStr st "RUNNING" then "🟢"
              else if jvalEqStr st "SHUTDOWN" then "🔴"
              else "🟡"
            let nm ← pyGetItem server "name"
            pure ("- " ++ emoji ++ " **" ++ pyStrOf fuel nm ++ "**: " ++
              pyStrOf fuel st))).map (fun ls =>
                String.intercalate "\n"
                  (["# WebLogic Servers", "", "**Total servers**: " ++ toString n, ""] ++ ls))
        | _, _ => none

/-- Result classification of `wlst_thread_dump`: `_handle_error` on process
failure, then the `THREAD_DUMP_ERROR` tag, then bracketed extraction between
the first occurrences of the two sentinels (`str.find` on the whole stdout,
Python slice semantics, `strip()`), and the unable-to-retrieve message only
when a sentinel is missing. -/
def wlst_thread_dump_render (r : ExecResult) (server_name : String) : String :=
  if !r.success then handle_error r
  else if pyInS "THREAD_DUMP_ERROR" r.stdout then
    "Error getting thread dump: " ++
      (match (pySplitLinesS r.stdout).filter (fun l => pyInS "THREAD_DUMP_ERROR" l) with
       | l :: _ => pyReplaceAllS l "THREAD_DUMP_ERROR: " ""
       | [] => "Unknown error")
  else
    match pyFindS r.stdout "THREAD_DUMP_START", pyFindS r.stdout "THREAD_DUMP_END" with
    | some start_idx, some end_idx =>
      "# Thread Dump for " ++ server_name ++ "\n\n```\n" ++
        pyStripS (pySliceS r.stdout (start_idx + "THREAD_DUMP_START".length) end_idx) ++
        "\n```"
    | _, _ => "Unable to retrieve thread dump."

/-- Script composition of `wlst_execute_script`: the user script is wrapped
in the connect/disconnect fragments exactly when all three resolved
credential values (`caller or environment default`) are truthy. -/
def wlst_execute_script_build (admin_url? username? password? : Option String)
    (defaultUrl defaultUser defaultPw script : String) : String :=
  let admin_url := pyOrStr admin_url? defaultUrl
  let username := pyOrStr username? defaultUser
  let password := pyOrStr password? defaultPw
  if admin_url != "" && username != "" && password != "" then
    "\n" ++ build_connect_script admin_url username password ++
      "\n\n# User script starts here\n" ++ script ++
      "\n# User script ends here\n\n" ++ build_disconnect_script ++ "\n"
  else script

/-- Result rendering of `wlst_execute_script`: raw captured stdout (and, on
failure, stderr) are embedded verbatim in the returned message. -/
def wlst_execute_script_render (r : ExecResult) : String :=
  if !r.success then
    "Script execution failed:\n\n**STDOUT:**\n```\n" ++ r.stdout ++
      "\n```\n\n**STDERR:**\n```\n" ++ r.stderr ++ "\n```"
  else
    "Script executed successfully:\n\n```\n" ++ r.stdout ++ "\n```"

/-- The whole `wlst_execute_script` operation: compose the script, run the
child process (whose behaviour on a given script is the environment `b`),
render the result. -/
def wlst_execute_script_op (admin_url? username? password? : Option String)
    (defaultUrl defaultUser defaultPw script : String)
    (b : String → ProcOutcome) (timeout : Nat) (unlinkFails : Bool) : String :=
  let full_script :=
    wlst_execute_script_build admin_url? username? password?
      defaultUrl defaultUser defaultPw script
  wlst_execute_script_render (execute_wlst_script (b full_script) timeout unlinkFails).result

/-! ## General lemmas about the string scanners -/

theorem string_data_append (a b : String) : (a ++ b).data = a.data ++ b.data := rfl

theorem leadsWith_nil_needle (l : List Char) : leadsWith [] l = true := by
  cases l <;> rfl

theorem leadsWith_refl_append (p q : List Char) : leadsWith p (p ++ q) = true := by
  induction p with
  | nil => exact leadsWith_nil_needle _
  | cons a as ih => simp [leadsWith, ih]

theorem strStarts_self_append (p z : String) : strStarts p (p ++ z) = true := by
  unfold strStarts
  rw [string_data_append]
  exact leadsWith_refl_append _ _

theorem leadsWith_append_of (n : List Char) :
    ∀ h y, leadsWith n h = true → leadsWith n (h ++ y) = true := by
  induction n with
  | nil => intro h y _; exact leadsWith_nil_needle _
  | cons a as ih =>
    intro h y hl
    cases h with
    | nil => simp [leadsWith] at hl
    | cons b hs =>
      simp only [leadsWith, Bool.and_eq_true] at hl
      simp only [List.cons_append, leadsWith, Bool.and_eq_true]
      exact ⟨hl.1, ih hs y hl.2⟩

theorem pyInAux_nil_needle (l : List Char) : pyInAux [] l = true := by
  cases l <;> simp [pyInAux, leadsWith]

theorem pyInAux_append_right (n : List Char) :
    ∀ pre h, pyInAux n h = true → pyInAux n (pre ++ h) = true := by
  intro pre
  induction pre with
  | nil => intro h hh; simpa using hh
  | cons c cs ih =>
    intro h hh
    simp only [List.cons_append, pyInAux, Bool.or_eq_true]
    exact Or.inr (ih h hh)

theorem pyInAux_append_left (n : List Char) :
    ∀ h y, pyInAux n h = true → pyInAux n (h ++ y) = true := by
  intro h
  induction h with
  | nil =>
    intro y hh
    cases n with
    | nil => exact pyInAux_nil_needle y
    | cons a as => simp [pyInAux, leadsWith] at hh
  | cons c hs ih =>
    intro y hh
    simp only [pyInAux, Bool.or_eq_true] at hh
    simp only [List.cons_append, pyInAux, Bool.or_eq_true]
    cases hh with
    | inl hl =>
      exact Or.inl (by simpa using leadsWith_append_of n (c :: hs) y hl)
    | inr hr => exact Or.inr (ih y hr)

theorem pyInS_append_left (n h y : String) (hh : pyInS n h = true) :
    pyInS n (h ++ y) = true := by
  unfold pyInS at *
  rw [string_data_append]
  exact pyInAux_append_left _ _ _ hh

theorem pyInS_append_right (n pre h : String) (hh : pyInS n h = true) :
    pyInS n (pre ++ h) = true := by
  unfold pyInS at *
  rw [string_data_append]
  exact pyInAux_append_right _ _ _ hh

theorem findSome?_singleton (f : String → Option JVal) (l : String) :
    [l].findSome? f = f l := by
  cases h : f l <;> simp [List.findSome?, h]

theorem thread_dump_header_ne (srv body : String) :
    ("# Thread Dump for " ++ srv ++ "\n\n```\n" ++ body ++ "\n```") ≠
      "Unable to retrieve thread dump." := by
  intro h
  have hd := congrArg String.data h
  rw [string_data_append, string_data_append, string_data_append,
    string_data_append] at hd
  have h1 : "# Thread Dump for ".data = '#' :: " Thread Dump for ".data := rfl
  have h2 : "Unable to retrieve thread dump.".data =
      'U' :: "nable to retrieve thread dump.".data := rfl
  rw [h1, h2] at hd
  simp only [List.cons_append] at hd
  injection hd with hc _
  exact absurd hc (by decide)

/-! ## Claim theorems -/

/-- Claim C1, counterexample. The claim says a `CONNECTION_ERROR:` marker in
stdout classifies the outcome as ConnectionFailure regardless of exit status
and of any success-tag line. On the code, when the exit status is 0 and the
success tag is also present, `wlst_test_connection` returns the success
message: the success-marker check runs before the connection-error check. -/
theorem c1_success_tag_overrides_connection_error :
    wlst_test_connection_render
        { success := true, returncode := some 0,
          stdout := "CONNECTION_ERROR: boom\nCONNECTION_SUCCESS",
          stderr := "", error := none } "t3://h:7001" =
      "Connection successful!\n\n- **Domain**: Unknown\n- **Version**: Unknown\n- **URL**: t3://h:7001" ∧
    strStarts "Error: Connection failed. "
      (wlst_test_connection_render
        { success := true, returncode := some 0,
          stdout := "CONNECTION_ERROR: boom\nCONNECTION_SUCCESS",
          stderr := "", error := none } "t3://h:7001") = false :=
  ⟨rfl, rfl⟩

/-- Claim C1, amended: the connection-error check takes precedence over the
operation-error and generic-error checks, but only after the success check
has failed — whenever the execution was not (exit status 0 with the success
tag present), and (for `wlst_start_server`) no `START_ERROR` tag is present,
a `CONNECTION_ERROR` marker in stdout makes both operations return the
ConnectionFailure message family of `_handle_error`. -/
theorem c1_connection_error_classification (r : ExecResult)
    (admin_url server_name : String)
    (hmarker : pyInS "CONNECTION_ERROR" r.stdout = true)
    (htest : (r.success && pyInS "CONNECTION_SUCCESS" r.stdout) = false)
    (hstart : (r.success && pyInS "SERVER_STARTED" r.stdout) = false)
    (hstarterr : pyInS "START_ERROR" r.stdout = false) :
    strStarts "Error: Connection failed. "
        (wlst_test_connection_render r admin_url) = true ∧
    strStarts "Error: Connection failed. "
        (wlst_start_server_render r server_name) = true := by
  have hhe : strStarts "Error: Connection failed. " (handle_error r) = true := by
    unfold handle_error
    rw [hmarker]
    simp only [if_true]
    exact strStarts_self_append _ _
  constructor
  · unfold wlst_test_connection_render
    rw [htest]
    simpa using hhe
  · unfold wlst_start_server_render
    rw [hstart, hstarterr]
    simpa using hhe

/-- Witness for the amended claim C1 at a concrete failed execution whose
stdout carries the connection-error marker. -/
theorem c1_connection_error_classification_witness :
    pyInS "CONNECTION_ERROR" "CONNECTION_ERROR: bad credentials" = true ∧
    strStarts "Error: Connection failed. "
        (wlst_test_connection_render
          { success := false, returncode := some 1,
            stdout := "CONNECTION_ERROR: bad credentials",
            stderr := "", error := some "trace" } "t3://h:7001") = true ∧
    strStarts "Error: Connection failed. "
        (wlst_start_server_render
          { success := false, returncode := some 1,
            stdout := "CONNECTION_ERROR: bad credentials",
            stderr := "", error := some "trace" } "ms1") = true := by
  have h := c1_connection_error_classification
    { success := false, returncode := some 1,
      stdout := "CONNECTION_ERROR: bad credentials",
      stderr := "", error := some "trace" } "t3://h:7001" "ms1" rfl rfl rfl rfl
  exact ⟨rfl, h.1, h.2⟩

/-- Claim C2. The claim (interpolated caller values are escaped or rejected
so they cannot alter the script) is the documented intent; the code
interpolates the values verbatim, so a value containing the quote delimiter
escapes its string literal: two distinct credential triples compose the very
same `ScriptSource`, which escaping would make impossible. -/
theorem c2_unescaped_delimiter_collision :
    build_connect_script "D" "A', 'B" "C" = build_connect_script "C', 'D" "A" "B" ∧
    ("A', 'B" : String) ≠ "A" ∧ ("D" : String) ≠ "C', 'D" :=
  ⟨rfl, by decide, by decide⟩

/-- Claim C3: on timeout the Process Runner kills the child process and
returns success=false, empty stdout and stderr, and an error message
carrying the elapsed timeout bound. -/
theorem c3_timeout_execution_result (t : Nat) (uf : Bool) :
    (execute_wlst_script .timesOut t uf).result.success = false ∧
    (execute_wlst_script .timesOut t uf).result.stdout = "" ∧
    (execute_wlst_script .timesOut t uf).result.stderr = "" ∧
    (execute_wlst_script .timesOut t uf).result.error =
      some ("Script execution timed out after " ++ toString t ++ " seconds") ∧
    (execute_wlst_script .timesOut t uf).killed = true :=
  ⟨rfl, rfl, rfl, rfl, rfl⟩

/-- Claim C4: on every exit path (normal completion, non-zero exit, timeout)
the deletion of the transient script artifact is attempted, and whether the
deletion succeeds or fails never changes the returned ExecutionResult. -/
theorem c4_artifact_cleanup_every_path (b : ProcOutcome) (t : Nat) (f1 f2 : Bool) :
    (execute_wlst_script b t f1).deletionAttempted = true ∧
    (execute_wlst_script b t f1).result = (execute_wlst_script b t f2).result := by
  constructor
  · cases f1 <;> rfl
  · rfl

/-- Claim C5, counterexample. With two decodable `SERVERS_JSON:` lines the
extraction returns the payload of the second line, not of the first as the
claim states. -/
theorem c5_first_match_does_not_win :
    extract_servers "SERVERS_JSON:[1]\nSERVERS_JSON:[2]" = .arr [.num 2] ∧
    extract_servers "SERVERS_JSON:[1]\nSERVERS_JSON:[2]" ≠ .arr [.num 1] := by
  refine ⟨rfl, ?_⟩
  intro h
  have h' : (JVal.arr [JVal.num 2]) = JVal.arr [JVal.num 1] := by
    calc JVal.arr [JVal.num 2]
        = extract_servers "SERVERS_JSON:[1]\nSERVERS_JSON:[2]" := rfl
      _ = JVal.arr [JVal.num 1] := h
  injection h' with harr
  injection harr with hhead _
  injection hhead with hnum
  exact absurd hnum (by decide)

/-- Claim C5, amended: the extraction loop returns the payload of the LAST
matching line whose payload decodes (the first decodable match of the
reversed line list); lines whose payload fails to decode are skipped, and
the initial accumulator is returned when no matching line decodes. -/
theorem c5_last_decodable_match_wins (tag : String) (lines : List String) :
    ∀ acc, extract_tag_loop tag lines acc =
      (lines.reverse.findSome? (decode_tag_line tag)).getD acc := by
  induction lines with
  | nil => intro acc; rfl
  | cons l ls ih =>
    intro acc
    rw [List.reverse_cons, List.findSome?_append, findSome?_singleton]
    unfold extract_tag_loop
    cases hin : pyInS tag l with
    | false =>
      have hd : decode_tag_line tag l = none := by simp [decode_tag_line, hin]
      rw [hd]
      show extract_tag_loop tag ls acc =
        ((ls.reverse.findSome? (decode_tag_line tag)).or none).getD acc
      rw [ih acc]
      cases hrev : ls.reverse.findSome? (decode_tag_line tag) <;> rfl
    | true =>
      cases hj : json_loads (pyReplaceAllS l tag "") with
      | none =>
        have hd : decode_tag_line tag l = none := by simp [decode_tag_line, hin, hj]
        rw [hd]
        show extract_tag_loop tag ls acc =
          ((ls.reverse.findSome? (decode_tag_line tag)).or none).getD acc
        rw [ih acc]
        cases hrev : ls.reverse.findSome? (decode_tag_line tag) <;> rfl
      | some v =>
        have hd : decode_tag_line tag l = some v := by simp [decode_tag_line, hin, hj]
        rw [hd]
        show extract_tag_loop tag ls v =
          ((ls.reverse.findSome? (decode_tag_line tag)).or (some v)).getD acc
        rw [ih v]
        cases hrev : ls.reverse.findSome? (decode_tag_line tag) <;> rfl

/-- Claim C6, counterexample. When the end sentinel occurs only before the
start sentinel, the claim requires the absent outcome; the code takes the
backwards (empty) slice and returns a thread-dump message instead. -/
theorem c6_out_of_order_sentinels_not_absent :
    wlst_thread_dump_render
        { success := true, returncode := some 0,
          stdout := "THREAD_DUMP_END THREAD_DUMP_START",
          stderr := "", error := none } "s1" =
      "# Thread Dump for s1\n\n```\n\n```" ∧
    wlst_thread_dump_render
        { success := true, returncode := some 0,
          stdout := "THREAD_DUMP_END THREAD_DUMP_START",
          stderr := "", error := none } "s1" ≠
      "Unable to retrieve thread dump." := by
  refine ⟨rfl, ?_⟩
  intro h
  have h' : ("# Thread Dump for s1\n\n```\n\n```" : String) =
      "Unable to retrieve thread dump." := by
    calc ("# Thread Dump for s1\n\n```\n\n```" : String)
        = wlst_thread_dump_render
            { success := true, returncode := some 0,
              stdout := "THREAD_DUMP_END THREAD_DUMP_START",
              stderr := "", error := none } "s1" := rfl
      _ = "Unable to retrieve thread dump." := h
  exact absurd h' (by decide)

/-- Claim C6, amended: bracketed extraction slices from the end of the first
occurrence of the start sentinel to the first occurrence anywhere of the end
sentinel (the empty string when that occurrence is not after the start) and
trims the slice; the unable-to-retrieve outcome occurs exactly when either
sentinel is missing from stdout, not additionally when they are out of
order. -/
theorem c6_bracketed_extraction_behaviour (r : ExecResult) (srv : String)
    (hs : r.success = true)
    (he : pyInS "THREAD_DUMP_ERROR" r.stdout = false) :
    ((wlst_thread_dump_render r srv = "Unable to retrieve thread dump.") ↔
      (pyFindS r.stdout "THREAD_DUMP_START" = none ∨
       pyFindS r.stdout "THREAD_DUMP_END" = none)) ∧
    (∀ i j, pyFindS r.stdout "THREAD_DUMP_START" = some i →
        pyFindS r.stdout "THREAD_DUMP_END" = some j →
        wlst_thread_dump_render r srv =
          "# Thread Dump for " ++ srv ++ "\n\n```\n" ++
            pyStripS (pySliceS r.stdout (i + "THREAD_DUMP_START".length) j) ++
            "\n```") := by
  unfold wlst_thread_dump_render
  rw [hs, he]
  simp only [Bool.not_true, Bool.false_eq_true, if_false]
  cases hS : pyFindS r.stdout "THREAD_DUMP_START" with
  | none =>
    cases hE : pyFindS r.stdout "THREAD_DUMP_END" <;> simp [hS, hE]
  | some i =>
    cases hE : pyFindS r.stdout "THREAD_DUMP_END" with
    | none => simp [hS, hE]
    | some j =>
      constructor
      · simp only [hS, hE]
        constructor
        · intro h; exact absurd h (thread_dump_header_ne srv _)
        · intro h; cases h <;> simp_all
      · intro i' j' h1 h2
        injection h1 with h1; injection h2 with h2
        subst h1; subst h2
        rfl

/-- Witness for the amended claim C6 at a concrete stdout with in-order
sentinels, where the extraction yields the trimmed text strictly between
them. -/
theorem c6_bracketed_extraction_behaviour_witness :
    ({ success := true, returncode := some 0,
       stdout := "xTHREAD_DUMP_START hi THREAD_DUMP_END",
       stderr := "", error := none } : ExecResult).success = true ∧
    pyInS "THREAD_DUMP_ERROR" "xTHREAD_DUMP_START hi THREAD_DUMP_END" = false ∧
    wlst_thread_dump_render
        { success := true, returncode := some 0,
          stdout := "xTHREAD_DUMP_START hi THREAD_DUMP_END",
          stderr := "", error := none } "s1" =
      "# Thread Dump for s1\n\n```\nhi\n```" := by
  refine ⟨rfl, rfl, ?_⟩
  have h := (c6_bracketed_extraction_behaviour
    { success := true, returncode := some 0,
      stdout := "xTHREAD_DUMP_START hi THREAD_DUMP_END",
      stderr := "", error := none } "s1" rfl rfl).2 1 22 rfl rfl
  rw [h]
  rfl

/-- Claim C7, counterexample. A full `wlst_execute_script` invocation whose
resolved password is `hunter2` and whose child process echoes that password
to stdout returns a message containing the secret: the returned string is
not password-free. -/
theorem c7_password_leaks_into_output :
    pyInS "hunter2"
      (wlst_execute_script_op (some "t3://h:7001") (some "admin") (some "hunter2")
        "" "" "" "print(1)" (fun _ => .completes 1 "hunter2" "") 120 false) = true :=
  rfl

/-- Claim C7, amended: the result messages are built from fixed template
text with the captured stdout (and, on failure, stderr) embedded verbatim
and no redaction applied, so whatever secret appears in the captured stdout
appears in the string returned to the caller. -/
theorem c7_output_embeds_stdout_verbatim (pw : String) (r : ExecResult)
    (h : pyInS pw r.stdout = true) :
    pyInS pw (wlst_execute_script_render r) = true := by
  unfold wlst_execute_script_render
  cases hs : r.success with
  | false =>
    simp only [Bool.not_false, if_true]
    exact pyInS_append_left _ _ _
      (pyInS_append_left _ _ _
        (pyInS_append_left _ _ _ (pyInS_append_right _ _ _ h)))
  | true =>
    simp only [Bool.not_true, Bool.false_eq_true, if_false]
    exact pyInS_append_left _ _ _ (pyInS_append_right _ _ _ h)

/-- Witness for the amended claim C7 at a concrete execution result whose
stdout contains the secret. -/
theorem c7_output_embeds_stdout_verbatim_witness :
    pyInS "s3cr3t" "out s3cr3t" = true ∧
    pyInS "s3cr3t"
      (wlst_execute_script_render
        { success := true, returncode := some 0, stdout := "out s3cr3t",
          stderr := "", error := none }) = true :=
  ⟨rfl, c7_output_embeds_stdout_verbatim "s3cr3t"
    { success := true, returncode := some 0, stdout := "out s3cr3t",
      stderr := "", error := none } rfl⟩

/-- Claim C8: on the spec's example stdout the structured extraction returns
the decoded single-element list with name `srv1` and state `RUNNING`; and on
stdout with no matching tag line, or with an undecodable payload, extraction
stays empty and the operation returns the unable-to-parse message instead of
raising. -/
theorem c8_structured_extraction_correctness :
    extract_servers
        "noise\nSERVERS_JSON:[\x7b\"name\":\"srv1\",\"state\":\"RUNNING\"\x7d]\nmore noise" =
      .arr [.obj [("name", .str "srv1"), ("state", .str "RUNNING")]] ∧
    wlst_list_servers_render
        { success := true, returncode := some 0, stdout := "no marker here",
          stderr := "", error := none } .markdown =
      some "No servers found or unable to parse server list." ∧
    wlst_list_servers_render
        { success := true, returncode := some 0, stdout := "SERVERS_JSON:notjson",
          stderr := "", error := none } .markdown =
      some "No servers found or unable to parse server list." :=
  ⟨rfl, rfl, rfl⟩

/-- Claim C9: for a completed (non-timeout) execution the success flag is
set exactly when the exit code is 0, and the error field is `None` exactly
when the exit code is 0, carrying the captured stderr otherwise. -/
theorem c9_exit_code_contract (rc : Int) (out err : String) (t : Nat) (uf : Bool) :
    (execute_wlst_script (.completes rc out err) t uf).result.success = (rc == 0) ∧
    (execute_wlst_script (.completes rc out err) t uf).result.error =
      (if rc == 0 then none else some err) := by
  refine ⟨rfl, ?_⟩
  show (if rc != 0 then some err else none) = (if rc == 0 then none else some err)
  by_cases h : rc = 0 <;> simp [h]

/-- Claim C10: the user script is wrapped in the connect/disconnect preamble
and postamble exactly when all three resolved values (caller value or
environment default) — admin URL, username, password — are non-empty;
otherwise the user script is used verbatim. -/
theorem c10_wrapper_iff_credentials (admin_url? username? password? : Option String)
    (dA dU dP s : String) :
    wlst_execute_script_build admin_url? username? password? dA dU dP s =
      (if pyOrStr admin_url? dA ≠ "" ∧ pyOrStr username? dU ≠ "" ∧
          pyOrStr password? dP ≠ "" then
        "\n" ++ build_connect_script (pyOrStr admin_url? dA) (pyOrStr username? dU)
            (pyOrStr password? dP) ++
          "\n\n# User script starts here\n" ++ s ++
          "\n# User script ends here\n\n" ++ build_disconnect_script ++ "\n"
      else s) := by
  unfold wlst_execute_script_build
  by_cases hA : pyOrStr admin_url? dA = "" <;>
    by_cases hU : pyOrStr username? dU = "" <;>
      by_cases hP : pyOrStr password? dP = "" <;>
        simp [hA, hU, hP]

end WlstMcp



